import Mathlib

/-!
Shallow embedding of `src/pages/1_🗺️_Map.py` (Streamlit page rendering
GeoTIFF rasters as colored overlays on a folium map).

The raster pipeline (`process_geotiff`) and the layer compositor
(`create_map`, plus the module-level cleanup loop) are modelled as pure
Lean functions.  Machine floats are modelled as `FVal`: a rational
number, NaN, or a signed infinity, with IEEE-style propagation for the
two arithmetic operations the code performs on possibly-NaN data
(subtraction and division).  Signed zero is not representable in ℚ; no
claim depends on it.
-/

set_option maxRecDepth 8192

namespace CsMap

/-- RGBA color with rational channels (matplotlib colors live in [0,1]). -/
structure Rgba where
  r : ℚ
  g : ℚ
  b : ℚ
  a : ℚ
deriving DecidableEq, Repr

/-- Model of a numpy float64 value as used by this pipeline: NaN, a signed
infinity, or a finite rational. -/
inductive FVal where
  | nan
  | posInf
  | negInf
  | num (q : ℚ)
deriving DecidableEq, Repr

/-- IEEE-style subtraction on `FVal` (NaN propagates; inf − inf = NaN). -/
def fsub : FVal → FVal → FVal
  | .nan, _ => .nan
  | _, .nan => .nan
  | .num a, .num b => .num (a - b)
  | .posInf, .posInf => .nan
  | .posInf, _ => .posInf
  | .negInf, .negInf => .nan
  | .negInf, _ => .negInf
  | .num _, .posInf => .negInf
  | .num _, .negInf => .posInf

/-- IEEE-style division on `FVal`: NaN propagates, 0/0 = NaN, x/0 = ±inf for
x ≠ 0 (numpy emits a RuntimeWarning but raises no exception), finite/inf = 0. -/
def fdiv : FVal → FVal → FVal
  | .nan, _ => .nan
  | _, .nan => .nan
  | .num a, .num b =>
      if b = 0 then
        if a = 0 then .nan else if 0 < a then .posInf else .negInf
      else .num (a / b)
  | .posInf, .num b => if b < 0 then .negInf else .posInf
  | .negInf, .num b => if b < 0 then .posInf else .negInf
  | _, _ => .nan

/-- Percentile with linear interpolation over the defined (non-NaN) values,
as computed by `np.nanpercentile(data, q)` with the default method: sort the
values, take the virtual index `q/100 * (n-1)` and interpolate linearly
between its two neighbouring order statistics.  Returns `none` (NaN) when no
defined value exists, mirroring numpy's all-NaN result. -/
def percentile (xs : List ℚ) (q : ℚ) : Option ℚ :=
  let s := xs.insertionSort (· ≤ ·)
  let n := s.length
  if n = 0 then none
  else
    let pos : ℚ := q * (n - 1) / 100
    let i : ℕ := ⌊pos⌋₊
    let frac : ℚ := pos - i
    let lo := s.getD i 0
    let hi := s.getD (min (i + 1) (n - 1)) 0
    some (lo + frac * (hi - lo))

/-- Exceptions that can surface from the pipeline.  `rasterioIOError` is the
failure of `rasterio.open` on a missing path; `valueError` covers numpy's
refusal to write NaN into an integer band and matplotlib's rejection of an
unknown colormap name.  `configError` is the typed configuration failure the
spec's design notes call for; the code never produces it. -/
inductive Err where
  | rasterioIOError (path : String)
  | valueError (msg : String)
  | configError (msg : String)
deriving DecidableEq, Repr

/-- Geospatial extent of a dataset, as exposed by rasterio `src.bounds`. -/
structure Bounds where
  bottom : ℚ
  left : ℚ
  top : ℚ
  right : ℚ
deriving DecidableEq, Repr

/-- A single-band raster dataset as opened by `rasterio.open`: the band grid
(`src.read(1)`, row-major), the element dtype (integer or floating point),
the optional no-data sentinel (`src.nodata`) and the extent (`src.bounds`). -/
structure Dataset where
  intDtype : Bool
  grid : List (List ℚ)
  nodata : Option ℚ
  bounds : Bounds
deriving Repr

/-- Lines 68-69: `if src.nodata is not None: data[data == src.nodata] = np.nan`.
Assigning the float NaN into an integer-typed numpy array raises
`ValueError: cannot convert float NaN to integer` (the scalar is cast to the
array dtype before the masked assignment); on a float band every cell equal
to the sentinel becomes NaN. -/
def maskNodata (ds : Dataset) : Except Err (List (List FVal)) :=
  match ds.nodata with
  | none => .ok (ds.grid.map (fun row => row.map FVal.num))
  | some s =>
      if ds.intDtype then
        .error (.valueError "cannot convert float NaN to integer")
      else
        .ok (ds.grid.map (fun row => row.map
          (fun v => if v = s then FVal.nan else FVal.num v)))

/-- Defined (non-NaN) cells of a masked grid, the population over which
`np.nanpercentile` computes. -/
def definedVals (m : List (List FVal)) : List ℚ :=
  m.flatten.filterMap (fun v => match v with | .num q => some q | _ => none)

/-- View an optional percentile result as a float (none = NaN). -/
def toF : Option ℚ → FVal
  | some q => .num q
  | none => .nan

/-- Line 73: `norm_data = (data - vmin) / (vmax - vmin)` at one cell. -/
def normCell (vmin vmax : Option ℚ) (v : FVal) : FVal :=
  fdiv (fsub v (toF vmin)) (fsub (toF vmax) (toF vmin))

/-- A matplotlib colormap: a deterministic ramp over [0,1] plus the color
used for masked (NaN) cells.  For the colormaps this app names, matplotlib's
default bad color is fully transparent `(0,0,0,0)`. -/
structure Cmap where
  ramp : ℚ → Rgba
  bad : Rgba

/-- Stand-in for matplotlib's viridis lookup table (the exact 256-entry table
is library data; every claim depends only on the ramp being a fixed pure
function and on the bad color).  Linear ramp between the table's endpoint
colors #440154 and #fde725, alpha 1 throughout. -/
def viridis : Cmap :=
  { ramp := fun q =>
      ⟨68/255 + q * (185/255), 1/255 + q * (230/255), 84/255 - q * (47/255), 1⟩
    bad := ⟨0, 0, 0, 0⟩ }

/-- Stand-in for matplotlib's terrain colormap, as a linear ramp between its
endpoint colors (dark blue to white), alpha 1 throughout. -/
def terrain : Cmap :=
  { ramp := fun q =>
      ⟨51/255 + q * (204/255), 51/255 + q * (204/255), 153/255 + q * (102/255), 1⟩
    bad := ⟨0, 0, 0, 0⟩ }

/-- Colormap identifiers registered by matplotlib: the documented built-in
set of the matplotlib 3.x releases this app runs against, each name together
with its reversed `_r` variant.  Listed explicitly so the registry boundary
the program exposes through `plt.get_cmap` is explicit in the model. -/
def matplotlib_colormap_names : List String :=
  ["magma", "magma_r", "inferno", "inferno_r", "plasma", "plasma_r",
   "viridis", "viridis_r", "cividis", "cividis_r", "twilight",
   "twilight_r", "twilight_shifted", "twilight_shifted_r", "turbo",
   "turbo_r", "Blues", "Blues_r", "BrBG", "BrBG_r", "BuGn", "BuGn_r",
   "BuPu", "BuPu_r", "CMRmap", "CMRmap_r", "GnBu", "GnBu_r", "Greens",
   "Greens_r", "Greys", "Greys_r", "OrRd", "OrRd_r", "Oranges",
   "Oranges_r", "PRGn", "PRGn_r", "PiYG", "PiYG_r", "PuBu", "PuBu_r",
   "PuBuGn", "PuBuGn_r", "PuOr", "PuOr_r", "PuRd", "PuRd_r", "Purples",
   "Purples_r", "RdBu", "RdBu_r", "RdGy", "RdGy_r", "RdPu", "RdPu_r",
   "RdYlBu", "RdYlBu_r", "RdYlGn", "RdYlGn_r", "Reds", "Reds_r",
   "Spectral", "Spectral_r", "Wistia", "Wistia_r", "YlGn", "YlGn_r",
   "YlGnBu", "YlGnBu_r", "YlOrBr", "YlOrBr_r", "YlOrRd", "YlOrRd_r",
   "afmhot", "afmhot_r", "autumn", "autumn_r", "binary", "binary_r",
   "bone", "bone_r", "brg", "brg_r", "bwr", "bwr_r", "cool", "cool_r",
   "coolwarm", "coolwarm_r", "copper", "copper_r", "cubehelix",
   "cubehelix_r", "flag", "flag_r", "gist_earth", "gist_earth_r",
   "gist_gray", "gist_gray_r", "gist_heat", "gist_heat_r", "gist_ncar",
   "gist_ncar_r", "gist_rainbow", "gist_rainbow_r", "gist_stern",
   "gist_stern_r", "gist_yarg", "gist_yarg_r", "gnuplot", "gnuplot_r",
   "gnuplot2", "gnuplot2_r", "gray", "gray_r", "hot", "hot_r", "hsv",
   "hsv_r", "jet", "jet_r", "nipy_spectral", "nipy_spectral_r", "ocean",
   "ocean_r", "pink", "pink_r", "prism", "prism_r", "rainbow",
   "rainbow_r", "seismic", "seismic_r", "spring", "spring_r", "summer",
   "summer_r", "terrain", "terrain_r", "winter", "winter_r", "Accent",
   "Accent_r", "Dark2", "Dark2_r", "Paired", "Paired_r", "Pastel1",
   "Pastel1_r", "Pastel2", "Pastel2_r", "Set1", "Set1_r", "Set2",
   "Set2_r", "Set3", "Set3_r", "tab10", "tab10_r", "tab20", "tab20_r",
   "tab20b", "tab20b_r", "tab20c", "tab20c_r"]

/-- Line 76: `plt.get_cmap(colormap_name)`.  The two colormaps the app's
layer table names resolve to their modelled ramps; every other registered
matplotlib name resolves to a stand-in ramp (the exact lookup tables are
library data, and every claim depends only on the ramp being a fixed pure
function and on the default fully transparent bad color); an unregistered
name raises matplotlib's `ValueError` (there is no project-defined
ConfigError in the code). -/
def get_cmap (colormap_name : String) : Except Err Cmap :=
  if colormap_name = "viridis" then .ok viridis
  else if colormap_name = "terrain" then .ok terrain
  else if colormap_name ∈ matplotlib_colormap_names then
    .ok { ramp := fun q => ⟨q, q, q, 1⟩, bad := ⟨0, 0, 0, 0⟩ }
  else .error (.valueError (colormap_name ++ " is not a valid value for name"))

/-- Line 77: `cmap(norm_data)` at one cell.  Matplotlib maps NaN to the bad
color and clips out-of-range values to the ramp endpoints (default under and
over colors). -/
def cmapApply (cm : Cmap) : FVal → Rgba
  | .nan => cm.bad
  | .posInf => cm.ramp 1
  | .negInf => cm.ramp 0
  | .num q => cm.ramp (max 0 (min 1 q))

/-- An ephemeral PNG artifact: `NamedTemporaryFile` names are modelled as
pass-unique natural-number ids; `plt.imsave` writes exactly the RGBA grid,
so the byte content is modelled as that grid. -/
structure Artifact where
  path : ℕ
  content : List (List Rgba)

/-- State of the ephemeral storage: the fresh-name supply used by
`NamedTemporaryFile` and the artifacts currently on disk. -/
structure PassState where
  counter : ℕ
  storage : List Artifact

/-- File system of raster sources: `rasterio.open` either resolves a path to
a dataset or raises an IO error. -/
abbrev Env := String → Option Dataset

/-- Return value of `process_geotiff` (line 90): the temporary image path and
`[[bottom, left], [top, right]]`, modelled as a pair of pairs. -/
structure ProcResult where
  imagePath : ℕ
  bounds : (ℚ × ℚ) × (ℚ × ℚ)
deriving DecidableEq, Repr

/-- Lines 61-90, `process_geotiff(geotiff_path, colormap_name)`: open the
dataset, mask no-data, stretch by the 2nd/98th nan-percentiles, colorize,
write one temporary PNG, and return its path with the dataset bounds.  Any
exception leaves the state unchanged (every failure point precedes the
temporary-file creation at line 80). -/
def process_geotiff (env : Env) (geotiff_path colormap_name : String)
    (st : PassState) : Except Err ProcResult × PassState :=
  match env geotiff_path with
  | none => (.error (.rasterioIOError geotiff_path), st)
  | some src =>
    match maskNodata src with
    | .error e => (.error e, st)
    | .ok data =>
      let vmin := percentile (definedVals data) 2
      let vmax := percentile (definedVals data) 98
      let norm_data := data.map (fun row => row.map (normCell vmin vmax))
      match get_cmap colormap_name with
      | .error e => (.error e, st)
      | .ok cmap =>
        let colored_data := norm_data.map (fun row => row.map (cmapApply cmap))
        let temp_image_path := st.counter
        (.ok { imagePath := temp_image_path
               bounds := ((src.bounds.bottom, src.bounds.left),
                          (src.bounds.top, src.bounds.right)) },
         { counter := st.counter + 1
           storage := ⟨temp_image_path, colored_data⟩ :: st.storage })

/-- Per-layer configuration from the `LAYERS` table (lines 46-59); the layer
name is the table key and is carried separately. -/
structure LayerConfig where
  path : String
  colormap : String
  opacity : ℚ
  active : Bool

/-- An overlay registered with the folium map (lines 108-115). -/
structure Overlay where
  image : ℕ
  bounds : (ℚ × ℚ) × (ℚ × ℚ)
  name : String
  opacity : ℚ
deriving DecidableEq, Repr

/-- Observable per-layer outcome of one compositor iteration: an overlay was
added to the map, or the two `st.error` messages naming the layer and the
attempted path were emitted (lines 116-118). -/
inductive LayerOutcome where
  | success (name : String)
  | failure (name : String) (path : String) (e : Err)
deriving DecidableEq, Repr

/-- The folium map object: center, zoom, overlays in addition order, and the
layer control added at line 121. -/
structure FoliumMap where
  location : ℚ × ℚ
  zoomStart : ℕ
  overlays : List Overlay
  layerControl : Bool

/-- Everything the compositor loop produces: the overlays added to the map,
the tracked `temp_files`, the observable outcome per active layer, and the
ephemeral-storage state. -/
structure GoOut where
  overlays : List Overlay
  temp_files : List ℕ
  outcomes : List LayerOutcome
  state : PassState

/-- Lines 97-118: the `for layer_name, layer_config in LAYERS.items()` loop.
Inactive layers are skipped; a failing layer records a failure outcome and
the loop continues; a successful layer appends its path to `temp_files` and
adds the overlay. -/
def createMapGo (env : Env) : List (String × LayerConfig) → PassState → GoOut
  | [], st => ⟨[], [], [], st⟩
  | (layer_name, layer_config) :: rest, st =>
    if layer_config.active then
      match process_geotiff env layer_config.path layer_config.colormap st with
      | (.ok r, st') =>
        let g := createMapGo env rest st'
        ⟨⟨r.imagePath, r.bounds, layer_name, layer_config.opacity⟩ :: g.overlays,
         r.imagePath :: g.temp_files,
         .success layer_name :: g.outcomes,
         g.state⟩
      | (.error e, st') =>
        let g := createMapGo env rest st'
        ⟨g.overlays, g.temp_files, .failure layer_name layer_config.path e :: g.outcomes, g.state⟩
    else createMapGo env rest st

/-- Result of `create_map` (line 122): the map object and `temp_files`, plus
the observable outcomes and the storage state. -/
structure RenderOut where
  m : FoliumMap
  temp_files : List ℕ
  outcomes : List LayerOutcome
  state : PassState

/-- Lines 92-122, `create_map()`: build the folium map, run the layer loop,
add the layer control. -/
def create_map (env : Env) (layers : List (String × LayerConfig))
    (lat lon : ℚ) (zoom_level : ℕ) (st : PassState) : RenderOut :=
  let g := createMapGo env layers st
  ⟨{ location := (lat, lon), zoomStart := zoom_level,
     overlays := g.overlays, layerControl := true },
   g.temp_files, g.outcomes, g.state⟩

/-- Line 137: `os.unlink(temp_file)` wrapped in try/except — removes the
artifact with that path if present, otherwise does nothing. -/
def unlink (st : PassState) (p : ℕ) : PassState :=
  ⟨st.counter, st.storage.filter (fun a => a.path ≠ p)⟩

/-- Lines 135-139: the cleanup loop over `temp_files`. -/
def cleanup (st : PassState) (temp_files : List ℕ) : PassState :=
  temp_files.foldl unlink st

/-- Lines 126-139: one full render pass starting from an empty ephemeral
storage: `create_map`, consumption of the map by `st_folium` (which does not
touch the artifacts), then the cleanup loop. -/
def renderPass (env : Env) (layers : List (String × LayerConfig))
    (lat lon : ℚ) (zoom_level : ℕ) (c : ℕ) : FoliumMap × List LayerOutcome × PassState :=
  let out := create_map env layers lat lon zoom_level ⟨c, []⟩
  (out.m, out.outcomes, cleanup out.state out.temp_files)

/-- Discriminator for `Except` results. -/
def exceptIsOk {ε α : Type _} : Except ε α → Bool
  | .ok _ => true
  | .error _ => false

/-- Whether processing a layer configuration succeeds: the source resolves,
the no-data masking does not raise, and the colormap name is registered.
This is independent of the storage state. -/
def procOk (env : Env) (cfg : LayerConfig) : Bool :=
  match env cfg.path with
  | none => false
  | some ds => exceptIsOk (maskNodata ds) && exceptIsOk (get_cmap cfg.colormap)

/-- Content of the artifact written by one `process_geotiff` call, located in
the final storage at the returned path; `none` when the call failed. -/
def writtenContent (env : Env) (geotiff_path colormap_name : String)
    (st : PassState) : Option (List (List Rgba)) :=
  match process_geotiff env geotiff_path colormap_name st with
  | (.ok r, st') => (st'.storage.find? (fun a => a.path = r.imagePath)).map (·.content)
  | (.error _, _) => none

/-- Cell of a row-major grid at row i, column j. -/
def cellAt {α : Type _} (g : List (List α)) (i j : ℕ) : Option α :=
  g[i]?.bind (fun row => row[j]?)

/-- Name carried by an outcome. -/
def outcomeName : LayerOutcome → String
  | .success n => n
  | .failure n _ _ => n

/-- Raster whose four cells all hold the value 5 (the C1 degenerate input). -/
def dsConst : Dataset :=
  { intDtype := false, grid := [[5, 5], [5, 5]], nodata := none,
    bounds := ⟨0, 0, 1, 1⟩ }

/-- The evenly spaced values 0..99 as rationals. -/
def vals100 : List ℚ := (List.range 100).map (fun k : ℕ => (k : ℚ))

/-- The 100-cell test raster holding the evenly spaced values 0..99 in one
row, with no no-data sentinel. -/
def ds100 : Dataset :=
  { intDtype := false, grid := [vals100], nodata := none, bounds := ⟨0, 0, 1, 1⟩ }

/-- Single-cell raster holding the value 5 (degenerate stretch input). -/
def ds5 : Dataset :=
  { intDtype := false, grid := [[5]], nodata := none, bounds := ⟨0, 0, 1, 1⟩ }

/-- A well-formed float raster used by the witnesses. -/
def dsGood : Dataset :=
  { intDtype := false, grid := [[1, 2], [3, 4]], nodata := none,
    bounds := ⟨-29, -50, -28, -49⟩ }

/-- A float raster declaring sentinel 7, with sentinel cells present. -/
def dsNod : Dataset :=
  { intDtype := false, grid := [[1, 7], [7, 2]], nodata := some 7,
    bounds := ⟨0, 0, 1, 1⟩ }

/-- An integer-typed raster declaring sentinel 7, with a sentinel cell. -/
def dsInt : Dataset :=
  { intDtype := true, grid := [[3, 7]], nodata := some 7, bounds := ⟨0, 0, 1, 1⟩ }

/-- Witness file system: four concrete rasters; every other path is missing. -/
def envW : Env := fun p =>
  if p = "data/good.tif" then some dsGood
  else if p = "data/nodata.tif" then some dsNod
  else if p = "data/int.tif" then some dsInt
  else if p = "data/const.tif" then some dsConst
  else none

lemma process_error_state (env : Env) (p c : String) (st : PassState) (e : Err)
    (st' : PassState) (h : process_geotiff env p c st = (.error e, st')) :
    st' = st := by
  unfold process_geotiff at h
  split at h
  · exact (Prod.mk.injEq _ _ _ _ ▸ h).2.symm
  · split at h
    · exact (Prod.mk.injEq _ _ _ _ ▸ h).2.symm
    · split at h
      · exact (Prod.mk.injEq _ _ _ _ ▸ h).2.symm
      · simp at h

lemma process_ok_state (env : Env) (p c : String) (st : PassState) (r : ProcResult)
    (st' : PassState) (h : process_geotiff env p c st = (.ok r, st')) :
    r.imagePath = st.counter ∧
    ∃ content, st' = ⟨st.counter + 1, ⟨st.counter, content⟩ :: st.storage⟩ := by
  unfold process_geotiff at h
  split at h
  · simp at h
  · split at h
    · simp at h
    · split at h
      · simp at h
      · rw [Prod.mk.injEq] at h
        obtain ⟨h1, h2⟩ := h
        rw [Except.ok.injEq] at h1
        refine ⟨by rw [← h1], ?_⟩
        exact ⟨_, h2.symm⟩

lemma exceptIsOk_process (env : Env) (cfg : LayerConfig) (st : PassState) :
    exceptIsOk (process_geotiff env cfg.path cfg.colormap st).1 = procOk env cfg := by
  unfold process_geotiff procOk
  rcases h : env cfg.path with _ | ds
  · simp [exceptIsOk]
  · rcases hm : maskNodata ds with e | m
    · simp [hm, exceptIsOk]
    · rcases hc : get_cmap cfg.colormap with e | cm
      · simp [hm, hc, exceptIsOk]
      · simp [hm, hc, exceptIsOk]

lemma mem_cleanup_iff (a : Artifact) :
    ∀ (temp_files : List ℕ) (st : PassState),
      a ∈ (cleanup st temp_files).storage ↔ a ∈ st.storage ∧ a.path ∉ temp_files := by
  intro temp_files
  induction temp_files with
  | nil => intro st; simp [cleanup]
  | cons p ps ih =>
    intro st
    have : cleanup st (p :: ps) = cleanup (unlink st p) ps := rfl
    rw [this, ih]
    simp only [unlink, List.mem_filter, List.mem_cons, decide_eq_true_eq]
    constructor
    · rintro ⟨⟨hmem, hne⟩, hnot⟩
      exact ⟨hmem, by rintro (h | h) <;> [exact hne h; exact hnot h]⟩
    · rintro ⟨hmem, hnot⟩
      exact ⟨⟨hmem, fun h => hnot (.inl h)⟩, fun h => hnot (.inr h)⟩

lemma createMapGo_storage_mem (env : Env) :
    ∀ (layers : List (String × LayerConfig)) (st : PassState) (a : Artifact),
      a ∈ (createMapGo env layers st).state.storage →
      a ∈ st.storage ∨ a.path ∈ (createMapGo env layers st).temp_files := by
  intro layers
  induction layers with
  | nil => intro st a h; exact .inl h
  | cons hd tl ih =>
    rintro st a h
    obtain ⟨layer_name, layer_config⟩ := hd
    by_cases hact : layer_config.active
    · rcases hp : process_geotiff env layer_config.path layer_config.colormap st
        with ⟨res, st'⟩
      cases res with
      | ok r =>
        simp only [createMapGo, hact, if_true, hp] at h ⊢
        obtain ⟨hpath, content, hst'⟩ := process_ok_state env _ _ st r st' hp
        rcases ih st' a h with hmem | htmp
        · rw [hst'] at hmem
          rcases List.mem_cons.mp hmem with heq | hmem'
          · right
            subst heq
            simp [hpath]
          · exact .inl hmem'
        · right; exact List.mem_cons_of_mem _ htmp
      | error e =>
        simp only [createMapGo, hact, if_true, hp] at h ⊢
        have hst' : st' = st := process_error_state env _ _ st e st' hp
        rw [hst'] at h ⊢
        exact ih st a h
    · simp only [createMapGo, hact, if_false] at h ⊢
      exact ih st a h

/-- C2: after a complete render pass — whatever the per-layer outcomes, including
layers whose processing raises — the cleanup loop releases every artifact the
pass created: the ephemeral storage attributable to the pass is empty. -/
theorem render_pass_releases_all_artifacts (env : Env)
    (layers : List (String × LayerConfig)) (lat lon : ℚ) (zoom_level c : ℕ) :
    (renderPass env layers lat lon zoom_level c).2.2.storage = [] := by
  rw [List.eq_nil_iff_forall_not_mem]
  intro a ha
  have hmc : a ∈ (cleanup (createMapGo env layers ⟨c, []⟩).state
      (createMapGo env layers ⟨c, []⟩).temp_files).storage := ha
  rw [mem_cleanup_iff] at hmc
  obtain ⟨hmem, hnot⟩ := hmc
  rcases createMapGo_storage_mem env layers ⟨c, []⟩ a hmem with h | h
  · simp at h
  · exact hnot h

/-- C7: processing the same dataset with the same palette twice yields identical
artifact contents — the written image depends only on the source dataset and
colormap, not on the ephemeral-storage state (which only supplies the fresh
temporary file name). -/
theorem process_geotiff_deterministic (env : Env) (geotiff_path colormap_name : String)
    (s₁ s₂ : PassState) :
    writtenContent env geotiff_path colormap_name s₁ =
      writtenContent env geotiff_path colormap_name s₂ := by
  unfold writtenContent process_geotiff
  rcases h : env geotiff_path with _ | ds
  · rfl
  · rcases hm : maskNodata ds with e | m
    · simp [hm]
    · rcases hc : get_cmap colormap_name with e | cm
      · simp [hm, hc]
      · simp [hm, hc, List.find?]

lemma process_none (env : Env) (p c : String) (st : PassState) (h : env p = none) :
    process_geotiff env p c st = (.error (.rasterioIOError p), st) := by
  unfold process_geotiff
  rw [h]

lemma process_ok_of_procOk (env : Env) (cfg : LayerConfig) (st : PassState)
    (h : procOk env cfg = true) :
    ∃ r st', process_geotiff env cfg.path cfg.colormap st = (.ok r, st') := by
  have hiso := exceptIsOk_process env cfg st
  rw [h] at hiso
  rcases hp : process_geotiff env cfg.path cfg.colormap st with ⟨res, st'⟩
  cases res with
  | ok r => exact ⟨r, st', rfl⟩
  | error e => rw [hp] at hiso; simp [exceptIsOk] at hiso

lemma createMapGo_names (env : Env) :
    ∀ (layers : List (String × LayerConfig)) (st : PassState),
      ((createMapGo env layers st).overlays.map Overlay.name =
        ((layers.filter (fun nc => nc.2.active)).filter
          (fun nc => procOk env nc.2)).map Prod.fst) ∧
      ((createMapGo env layers st).outcomes.map outcomeName =
        (layers.filter (fun nc => nc.2.active)).map Prod.fst) := by
  intro layers
  induction layers with
  | nil => intro st; exact ⟨rfl, rfl⟩
  | cons hd tl ih =>
    intro st
    obtain ⟨layer_name, layer_config⟩ := hd
    by_cases hact : layer_config.active = true
    · rcases hp : process_geotiff env layer_config.path layer_config.colormap st
        with ⟨res, st'⟩
      have hpo : procOk env layer_config = exceptIsOk res := by
        rw [← exceptIsOk_process env layer_config st, hp]
      cases res with
      | ok r =>
        have hpo' : procOk env layer_config = true := by rw [hpo]; rfl
        simp only [createMapGo, hact, if_true, hp, List.map_cons, List.filter_cons,
          hpo', outcomeName]
        refine ⟨?_, ?_⟩ <;> simp [(ih st').1, (ih st').2, outcomeName]
      | error e =>
        have hpo' : procOk env layer_config = false := by rw [hpo]; rfl
        simp only [createMapGo, hact, if_true, hp, List.map_cons, List.filter_cons,
          hpo', outcomeName]
        refine ⟨?_, ?_⟩ <;> simp [(ih st').1, (ih st').2, outcomeName]
    · rw [Bool.not_eq_true] at hact
      simp only [createMapGo, hact, Bool.false_eq_true, if_false, List.filter_cons]
      simpa using ih st

/-- C9: only layers with `active == true` are processed (one outcome per active
layer, in configuration order), and the successful overlays are registered on
the map in that same configuration order, which fixes both draw order and
layer-control listing order. -/
theorem overlays_follow_config_order (env : Env) (layers : List (String × LayerConfig))
    (lat lon : ℚ) (zoom_level : ℕ) (st : PassState) :
    ((create_map env layers lat lon zoom_level st).m.overlays.map Overlay.name =
      ((layers.filter (fun nc => nc.2.active)).filter
        (fun nc => procOk env nc.2)).map Prod.fst) ∧
    ((create_map env layers lat lon zoom_level st).outcomes.map outcomeName =
      (layers.filter (fun nc => nc.2.active)).map Prod.fst) :=
  createMapGo_names env layers st

/-- C3: with two active layers of which exactly one has a missing source path,
the pass yields exactly one failure outcome naming the bad layer and its
attempted path, exactly one success for the valid layer, and the valid layer's
overlay is the only one registered on the map; the loop returns normally
(`create_map` is a total function, so no exception escapes the compositor). -/
theorem partial_failure_isolates_bad_layer (env : Env) (st : PassState)
    (lat lon : ℚ) (zoom_level : ℕ) (n₁ n₂ : String) (c₁ c₂ : LayerConfig)
    (h₁ : c₁.active = true) (h₂ : c₂.active = true) :
    (env c₁.path = none → procOk env c₂ = true →
      (create_map env [(n₁, c₁), (n₂, c₂)] lat lon zoom_level st).outcomes =
          [.failure n₁ c₁.path (.rasterioIOError c₁.path), .success n₂] ∧
        (create_map env [(n₁, c₁), (n₂, c₂)] lat lon zoom_level st).m.overlays.map
          Overlay.name = [n₂]) ∧
    (procOk env c₁ = true → env c₂.path = none →
      (create_map env [(n₁, c₁), (n₂, c₂)] lat lon zoom_level st).outcomes =
          [.success n₁, .failure n₂ c₂.path (.rasterioIOError c₂.path)] ∧
        (create_map env [(n₁, c₁), (n₂, c₂)] lat lon zoom_level st).m.overlays.map
          Overlay.name = [n₁]) := by
  constructor
  · intro hbad hgood
    obtain ⟨r, st', hp₂⟩ := process_ok_of_procOk env c₂ st hgood
    simp [create_map, createMapGo, h₁, h₂, process_none env c₁.path c₁.colormap st hbad,
      hp₂]
  · intro hgood hbad
    obtain ⟨r, st', hp₁⟩ := process_ok_of_procOk env c₁ st hgood
    simp [create_map, createMapGo, h₁, h₂, hp₁,
      process_none env c₂.path c₂.colormap st' hbad]

lemma get_cmap_bad (colormap_name : String) (cm : Cmap)
    (h : get_cmap colormap_name = .ok cm) : cm.bad = ⟨0, 0, 0, 0⟩ := by
  unfold get_cmap at h
  split at h
  · cases h; rfl
  · split at h
    · cases h; rfl
    · split at h
      · cases h; rfl
      · cases h

lemma process_ok_full (env : Env) (p c : String) (st : PassState) (ds : Dataset)
    (m : List (List FVal)) (cm : Cmap)
    (hds : env p = some ds) (hm : maskNodata ds = .ok m) (hcm : get_cmap c = .ok cm) :
    process_geotiff env p c st =
      (.ok ⟨st.counter, ((ds.bounds.bottom, ds.bounds.left),
                         (ds.bounds.top, ds.bounds.right))⟩,
       ⟨st.counter + 1,
        ⟨st.counter,
         (m.map (fun row => row.map (normCell (percentile (definedVals m) 2)
             (percentile (definedVals m) 98)))).map
           (fun row => row.map (cmapApply cm))⟩ :: st.storage⟩) := by
  unfold process_geotiff
  simp only [hds, hm, hcm]

lemma cellAt_map {α β : Type _} (f : α → β) (g : List (List α)) (i j : ℕ) :
    cellAt (g.map (fun row => row.map f)) i j = (cellAt g i j).map f := by
  unfold cellAt
  rw [List.getElem?_map]
  cases g[i]? with
  | none => rfl
  | some row => simp [List.getElem?_map]

lemma maskNodata_float (ds : Dataset) (s : ℚ) (hint : ds.intDtype = false)
    (hnod : ds.nodata = some s) :
    maskNodata ds = .ok (ds.grid.map (fun row => row.map
      (fun v => if v = s then FVal.nan else FVal.num v))) := by
  unfold maskNodata
  rw [hnod, hint]
  simp

/-- C10: `data[data == src.nodata] = np.nan` on an integer-typed band raises
`ValueError` — processing the dataset fails outright (storage untouched)
instead of marking the sentinel cells undefined; masking behaves as the spec
describes only on floating-point bands, where every sentinel cell becomes NaN. -/
theorem integer_band_nodata_masking_fails (env : Env) (p c : String) (st : PassState)
    (ds : Dataset) (s : ℚ)
    (hds : env p = some ds) (hint : ds.intDtype = true) (hnod : ds.nodata = some s)
    (hmem : s ∈ ds.grid.flatten) :
    process_geotiff env p c st =
      (.error (.valueError "cannot convert float NaN to integer"), st) ∧
    (∀ (ds₂ : Dataset) (i j : ℕ), ds₂.intDtype = false → ds₂.nodata = some s →
      cellAt ds₂.grid i j = some s →
      ∃ m, maskNodata ds₂ = .ok m ∧ cellAt m i j = some FVal.nan) := by
  constructor
  · have hmask : maskNodata ds =
        .error (.valueError "cannot convert float NaN to integer") := by
      unfold maskNodata
      rw [hnod, hint]
      simp
    unfold process_geotiff
    simp only [hds, hmask]
  · intro ds₂ i j hint₂ hnod₂ hcell
    refine ⟨_, maskNodata_float ds₂ s hint₂ hnod₂, ?_⟩
    rw [cellAt_map, hcell]
    simp

/-- C8: on success, the processor returns exactly the source dataset's extent
as `[[bottom, left], [top, right]]` — whatever the grid contents (pixel
resolution) — and the dataset invariant south ≤ north, west ≤ east carries
over to the returned bounds. -/
theorem bounds_match_dataset_extent (env : Env) (p c : String) (st : PassState)
    (ds : Dataset) (m : List (List FVal)) (cm : Cmap)
    (hds : env p = some ds) (hm : maskNodata ds = .ok m) (hcm : get_cmap c = .ok cm) :
    ∃ r st', process_geotiff env p c st = (.ok r, st') ∧
      r.bounds = ((ds.bounds.bottom, ds.bounds.left),
                  (ds.bounds.top, ds.bounds.right)) ∧
      (ds.bounds.bottom ≤ ds.bounds.top → ds.bounds.left ≤ ds.bounds.right →
        r.bounds.1.1 ≤ r.bounds.2.1 ∧ r.bounds.1.2 ≤ r.bounds.2.2) ∧
      (∀ (env₂ : Env) (p₂ c₂ : String) (st₂ : PassState) (ds₂ : Dataset)
          (m₂ : List (List FVal)) (cm₂ : Cmap),
        env₂ p₂ = some ds₂ → maskNodata ds₂ = .ok m₂ → get_cmap c₂ = .ok cm₂ →
        ds₂.bounds = ds.bounds →
        ∃ r₂ st₂', process_geotiff env₂ p₂ c₂ st₂ = (.ok r₂, st₂') ∧
          r₂.bounds = r.bounds) := by
  refine ⟨_, _, process_ok_full env p c st ds m cm hds hm hcm, rfl, ?_, ?_⟩
  · intro hb hl
    exact ⟨hb, hl⟩
  · intro env₂ p₂ c₂ st₂ ds₂ m₂ cm₂ hds₂ hm₂ hcm₂ hbounds
    refine ⟨_, _, process_ok_full env₂ p₂ c₂ st₂ ds₂ m₂ cm₂ hds₂ hm₂ hcm₂, ?_⟩
    rw [hbounds]

/-- C6 counterexample: resolving an unregistered palette identifier raises
matplotlib's ValueError, not the typed ConfigError the claim names. -/
theorem unknown_colormap_not_config_error :
    (∃ msg, get_cmap "plasma_oops" = .error (.valueError msg)) ∧
    (∀ msg, get_cmap "plasma_oops" ≠ .error (.configError msg)) := by
  constructor
  · exact ⟨"plasma_oops" ++ " is not a valid value for name",
      by simp [get_cmap, matplotlib_colormap_names]⟩
  · intro msg h
    simp [get_cmap, matplotlib_colormap_names] at h

/-- C6 (amended): resolving any palette identifier outside matplotlib's
registered colormap set fails with the palette library's untyped ValueError
naming the identifier, and no resolution failure is ever a project-typed
ConfigError (the code defines none). -/
theorem unknown_colormap_raises_value_error :
    (∀ colormap_name : String, colormap_name ∉ matplotlib_colormap_names →
      get_cmap colormap_name =
        .error (.valueError (colormap_name ++ " is not a valid value for name"))) ∧
    (∀ (colormap_name : String) (e : Err), get_cmap colormap_name = .error e →
      ∃ msg, e = .valueError msg) := by
  constructor
  · intro colormap_name hmem
    have h1 : colormap_name ≠ "viridis" := fun he => hmem (by
      rw [he]
      simp [matplotlib_colormap_names])
    have h2 : colormap_name ≠ "terrain" := fun he => hmem (by
      rw [he]
      simp [matplotlib_colormap_names])
    simp [get_cmap, h1, h2, hmem]
  · intro colormap_name e h
    unfold get_cmap at h
    split at h
    · cases h
    · split at h
      · cases h
      · split at h
        · cases h
        · rw [Except.error.injEq] at h
          exact ⟨_, h.symm⟩

/-- Witness for the amended C6 at a concrete unregistered identifier. -/
theorem unknown_colormap_raises_value_error_witness :
    "definitely_not_a_colormap" ∉ matplotlib_colormap_names ∧
    get_cmap "definitely_not_a_colormap" =
      .error (.valueError
        ("definitely_not_a_colormap" ++ " is not a valid value for name")) := by
  have hmem : "definitely_not_a_colormap" ∉ matplotlib_colormap_names := by
    simp [matplotlib_colormap_names]
  exact ⟨hmem,
    unknown_colormap_raises_value_error.1 "definitely_not_a_colormap" hmem⟩

lemma fsub_nan (x : FVal) : fsub FVal.nan x = FVal.nan := by cases x <;> rfl

lemma fdiv_nan (x : FVal) : fdiv FVal.nan x = FVal.nan := by cases x <;> rfl

lemma normCell_nan (vmin vmax : Option ℚ) : normCell vmin vmax FVal.nan = FVal.nan := by
  unfold normCell
  rw [fsub_nan, fdiv_nan]

lemma definedVals_mask (g : List (List ℚ)) (s : ℚ) :
    definedVals (g.map (fun row => row.map
        (fun v => if v = s then FVal.nan else FVal.num v))) =
      g.flatten.filter (fun v => v ≠ s) := by
  unfold definedVals
  rw [← List.map_flatten, List.filterMap_map]
  induction g.flatten with
  | nil => rfl
  | cons x xs ih =>
    by_cases hx : x = s
    · simpa [List.filterMap_cons, List.filter_cons, hx] using ih
    · simpa [List.filterMap_cons, List.filter_cons, hx] using ih

/-- C4: on a floating-point band that declares a no-data sentinel, the
percentile population is exactly the non-sentinel cells (sentinel cells are
excluded from the stretch), and in the written artifact every sentinel cell
receives the colormap's bad color, whose alpha is 0 for every registered
colormap — regardless of what the ramp would assign. -/
theorem nodata_cells_transparent_and_excluded (env : Env) (p c : String)
    (st : PassState) (ds : Dataset) (s : ℚ) (cm : Cmap)
    (hds : env p = some ds) (hnod : ds.nodata = some s) (hfloat : ds.intDtype = false)
    (hcm : get_cmap c = .ok cm) :
    ∃ m, maskNodata ds = .ok m ∧
      definedVals m = ds.grid.flatten.filter (fun v => v ≠ s) ∧
      ∃ r st' art, process_geotiff env p c st = (.ok r, st') ∧
        st'.storage = art :: st.storage ∧ art.path = r.imagePath ∧
        ∀ i j, cellAt ds.grid i j = some s →
          ∃ col, cellAt art.content i j = some col ∧ col.a = 0 := by
  have hm := maskNodata_float ds s hfloat hnod
  refine ⟨_, hm, definedVals_mask ds.grid s, ?_⟩
  refine ⟨_, _, _, process_ok_full env p c st ds _ cm hds hm hcm, rfl, rfl, ?_⟩
  intro i j hcell
  rw [cellAt_map, cellAt_map, cellAt_map, hcell]
  refine ⟨_, rfl, ?_⟩
  have hmask : ((fun v => if v = s then FVal.nan else FVal.num v) s) = FVal.nan := by
    simp
  rw [hmask, normCell_nan]
  have hbad : cmapApply cm FVal.nan = cm.bad := rfl
  rw [hbad, get_cmap_bad c cm hcm]

lemma getD_of_all_eq (s : List ℚ) (v : ℚ) (hmem : ∀ x ∈ s, x = v) (k : ℕ)
    (hk : k < s.length) : s.getD k 0 = v := by
  rw [List.getD_eq_getElem?_getD, List.getElem?_eq_getElem hk]
  exact hmem _ (List.getElem_mem hk)

lemma percentile_const (l : List ℚ) (v q : ℚ) (hq0 : 0 ≤ q) (hq1 : q ≤ 100)
    (h : ∀ x ∈ l, x = v) (hne : l ≠ []) :
    percentile l q = some v := by
  have hmem : ∀ x ∈ l.insertionSort (· ≤ ·), x = v := fun x hx =>
    h x ((List.mem_insertionSort _).mp hx)
  have hslen : (l.insertionSort (· ≤ ·)).length = l.length :=
    List.length_insertionSort _ _
  have hn0 : (l.insertionSort (· ≤ ·)).length ≠ 0 := by
    rw [hslen]
    exact fun h0 => hne (List.length_eq_zero.mp h0)
  have hn1 : 1 ≤ (l.insertionSort (· ≤ ·)).length := Nat.one_le_iff_ne_zero.mpr hn0
  have hcast1 : (1 : ℚ) ≤ ((l.insertionSort (· ≤ ·)).length : ℚ) := by
    exact_mod_cast hn1
  have hpos0 : (0 : ℚ) ≤ q * (((l.insertionSort (· ≤ ·)).length : ℚ) - 1) / 100 := by
    have : (0 : ℚ) ≤ ((l.insertionSort (· ≤ ·)).length : ℚ) - 1 := by linarith
    positivity
  have hfloor : ⌊q * (((l.insertionSort (· ≤ ·)).length : ℚ) - 1) / 100⌋₊ <
      (l.insertionSort (· ≤ ·)).length := by
    rw [Nat.floor_lt hpos0]
    have h1 : (0 : ℚ) ≤ ((l.insertionSort (· ≤ ·)).length : ℚ) - 1 := by linarith
    have h2 : q * (((l.insertionSort (· ≤ ·)).length : ℚ) - 1) ≤
        100 * (((l.insertionSort (· ≤ ·)).length : ℚ) - 1) :=
      mul_le_mul_of_nonneg_right hq1 h1
    linarith
  have hmin : min (⌊q * (((l.insertionSort (· ≤ ·)).length : ℚ) - 1) / 100⌋₊ + 1)
      ((l.insertionSort (· ≤ ·)).length - 1) < (l.insertionSort (· ≤ ·)).length := by
    omega
  simp only [percentile]
  rw [if_neg hn0]
  rw [getD_of_all_eq _ v hmem _ hfloor, getD_of_all_eq _ v hmem _ hmin]
  simp

lemma maskNodata_cells (ds : Dataset) (m : List (List FVal))
    (h : maskNodata ds = .ok m) :
    ∀ row ∈ m, ∀ cell ∈ row, cell = FVal.nan ∨ ∃ q, cell = FVal.num q := by
  unfold maskNodata at h
  rcases hn : ds.nodata with _ | s
  · simp only [hn] at h
    cases h
    intro row hrow cell hcell
    rw [List.mem_map] at hrow
    obtain ⟨row₀, hrow₀, rfl⟩ := hrow
    rw [List.mem_map] at hcell
    obtain ⟨q, hq, rfl⟩ := hcell
    exact .inr ⟨q, rfl⟩
  · simp only [hn] at h
    by_cases hint : ds.intDtype = true
    · rw [if_pos hint] at h
      cases h
    · rw [if_neg hint] at h
      cases h
      intro row hrow cell hcell
      rw [List.mem_map] at hrow
      obtain ⟨row₀, hrow₀, rfl⟩ := hrow
      rw [List.mem_map] at hcell
      obtain ⟨q, hq, rfl⟩ := hcell
      by_cases hqs : q = s
      · rw [if_pos hqs]
        exact .inl rfl
      · rw [if_neg hqs]
        exact .inr ⟨q, rfl⟩

/-- C1 (amended): a raster whose defined cells all share one value is processed
without any raised error and every cell of the artifact gets the same
well-defined color — but not via a fallback range: the degenerate stretch
low = high makes every defined cell normalize to NaN through the 0/0 division,
so the artifact is uniformly the colormap's bad color, transparent black. -/
theorem constant_raster_single_color (env : Env) (p c : String) (st : PassState)
    (ds : Dataset) (m : List (List FVal)) (cm : Cmap) (v : ℚ)
    (hds : env p = some ds) (hm : maskNodata ds = .ok m) (hcm : get_cmap c = .ok cm)
    (hconst : ∀ x ∈ definedVals m, x = v) :
    ∃ r st', process_geotiff env p c st = (.ok r, st') ∧
      ∃ art, st'.storage = art :: st.storage ∧
        ∀ row ∈ art.content, ∀ col ∈ row,
          col = { r := 0, g := 0, b := 0, a := 0 } := by
  refine ⟨_, _, process_ok_full env p c st ds m cm hds hm hcm, _, rfl, ?_⟩
  intro row hrow col hcol
  rw [List.mem_map] at hrow
  obtain ⟨row₁, hrow₁, rfl⟩ := hrow
  rw [List.mem_map] at hcol
  obtain ⟨cell₁, hcell₁, rfl⟩ := hcol
  rw [List.mem_map] at hrow₁
  obtain ⟨row₀, hrow₀, rfl⟩ := hrow₁
  rw [List.mem_map] at hcell₁
  obtain ⟨cell₀, hcell₀, rfl⟩ := hcell₁
  have hnorm : normCell (percentile (definedVals m) 2) (percentile (definedVals m) 98)
      cell₀ = FVal.nan := by
    rcases maskNodata_cells ds m hm row₀ hrow₀ cell₀ hcell₀ with hn | ⟨x, hx⟩
    · rw [hn, normCell_nan]
    · subst hx
      have hxd : x ∈ definedVals m := by
        unfold definedVals
        rw [List.mem_filterMap]
        exact ⟨.num x, List.mem_flatten.mpr ⟨row₀, hrow₀, hcell₀⟩, rfl⟩
      have hne : definedVals m ≠ [] := by
        intro h0
        rw [h0] at hxd
        cases hxd
      have hxv : x = v := hconst x hxd
      subst hxv
      rw [percentile_const _ x 2 (by norm_num) (by norm_num) hconst hne,
          percentile_const _ x 98 (by norm_num) (by norm_num) hconst hne]
      simp [normCell, toF, fsub, fdiv]
  rw [hnorm]
  have hbad : cmapApply cm FVal.nan = cm.bad := rfl
  rw [hbad, get_cmap_bad c cm hcm]

/-- C1 counterexample: on the constant raster the computed stretch is
degenerate (low = high = 5) and the code divides by the zero denominator: the
normalized value of a defined cell is NaN, not a number from any fallback
range. -/
theorem constant_raster_divides_by_zero :
    (maskNodata dsConst).map (fun m => (percentile (definedVals m) 2,
        percentile (definedVals m) 98)) = .ok (some 5, some 5) ∧
    fsub (toF (some 5)) (toF (some 5)) = FVal.num 0 ∧
    normCell (some 5) (some 5) (.num 5) = FVal.nan := by
  refine ⟨?_, ?_, ?_⟩
  · have hmask : maskNodata dsConst =
        .ok [[FVal.num 5, FVal.num 5], [FVal.num 5, FVal.num 5]] := rfl
    rw [hmask]
    have hd : definedVals [[FVal.num 5, FVal.num 5], [FVal.num 5, FVal.num 5]] =
        [5, 5, 5, 5] := rfl
    have hall : ∀ x ∈ ([5, 5, 5, 5] : List ℚ), x = 5 := by
      intro x hx
      simpa using hx
    show Except.ok
        (percentile (definedVals [[FVal.num 5, FVal.num 5], [FVal.num 5, FVal.num 5]]) 2,
         percentile (definedVals [[FVal.num 5, FVal.num 5], [FVal.num 5, FVal.num 5]]) 98) =
      Except.ok ((some 5 : Option ℚ), (some 5 : Option ℚ))
    rw [hd, percentile_const _ 5 2 (by norm_num) (by norm_num) hall (by simp),
        percentile_const _ 5 98 (by norm_num) (by norm_num) hall (by simp)]
  · simp [toF, fsub]
  · simp [normCell, toF, fsub, fdiv]

lemma sorted_cast_range :
    (vals100).insertionSort (· ≤ ·) = vals100 := by
  apply List.Sorted.insertionSort_eq
  unfold vals100
  refine List.pairwise_map.mpr ?_
  exact (List.sorted_le_range 100).imp (fun h => by exact_mod_cast h)

lemma length_vals100 : vals100.length = 100 := by
  unfold vals100
  simp

lemma getD_cast_range (k : ℕ) (hk : k < 100) :
    (vals100).getD k 0 = (k : ℚ) := by
  unfold vals100
  rw [List.getD_eq_getElem?_getD, List.getElem?_map]
  simp [List.getElem?_range, hk]

lemma percentile_cast_range_2 :
    percentile (vals100) 2 = some (99/50) := by
  simp only [percentile, sorted_cast_range, length_vals100, Nat.cast_ofNat]
  rw [if_neg (by norm_num)]
  rw [show ((2 : ℚ) * (100 - 1) / 100) = 99/50 by norm_num]
  rw [show (⌊(99/50 : ℚ)⌋₊) = 1 by rw [Nat.floor_eq_iff (by norm_num)]; norm_num]
  rw [show min (1 + 1) (100 - 1) = 2 from rfl]
  rw [getD_cast_range 1 (by norm_num), getD_cast_range 2 (by norm_num)]
  push_cast
  norm_num

lemma percentile_cast_range_98 :
    percentile (vals100) 98 = some (4851/50) := by
  simp only [percentile, sorted_cast_range, length_vals100, Nat.cast_ofNat]
  rw [if_neg (by norm_num)]
  rw [show ((98 : ℚ) * (100 - 1) / 100) = 4851/50 by norm_num]
  rw [show (⌊(4851/50 : ℚ)⌋₊) = 97 by rw [Nat.floor_eq_iff (by norm_num)]; norm_num]
  rw [show min (97 + 1) (100 - 1) = 98 from rfl]
  rw [getD_cast_range 97 (by norm_num), getD_cast_range 98 (by norm_num)]
  push_cast
  norm_num

lemma definedVals_num (g : List (List ℚ)) :
    definedVals (g.map (fun row => row.map FVal.num)) = g.flatten := by
  unfold definedVals
  rw [← List.map_flatten, List.filterMap_map]
  have hcomp : ((fun v => match v with
      | FVal.num q => some q
      | _ => none) ∘ FVal.num) = (some : ℚ → Option ℚ) := rfl
  rw [hcomp, List.filterMap_some]

/-- C5 (amended): for the grid of 100 evenly spaced values 0..99 with no
sentinel, the nan-percentile stretch computed by the code is exactly
(1.98, 97.02), i.e. approximately (2, 97); and for every non-degenerate
computed range (low < high) a cell at exactly low normalizes to 0 and a cell
at exactly high normalizes to 1.  (The original claim's second part quantified
over every dataset; when low = high the same cell instead normalizes to NaN —
see the counterexample.) -/
theorem percentile_range_and_normalization :
    ((maskNodata ds100).map (fun m => (percentile (definedVals m) 2,
        percentile (definedVals m) 98)) = .ok (some (99/50), some (4851/50))) ∧
    (|(99 : ℚ)/50 - 2| ≤ 1/10 ∧ |(4851 : ℚ)/50 - 97| ≤ 1/10) ∧
    (∀ lo hi : ℚ, lo < hi →
      normCell (some lo) (some hi) (.num lo) = FVal.num 0 ∧
      normCell (some lo) (some hi) (.num hi) = FVal.num 1) := by
  refine ⟨?_, ⟨by rw [abs_le]; constructor <;> norm_num,
    by rw [abs_le]; constructor <;> norm_num⟩, ?_⟩
  · have hmask : maskNodata ds100 = .ok ([vals100].map (fun row => row.map FVal.num)) :=
      rfl
    rw [hmask]
    show Except.ok
        (percentile (definedVals ([vals100].map (fun row => row.map FVal.num))) 2,
         percentile (definedVals ([vals100].map (fun row => row.map FVal.num))) 98) =
      Except.ok ((some ((99 : ℚ)/50) : Option ℚ), (some ((4851 : ℚ)/50) : Option ℚ))
    rw [definedVals_num, show ([vals100] : List (List ℚ)).flatten = vals100 by simp,
      percentile_cast_range_2, percentile_cast_range_98]
  · intro lo hi hlt
    have hne : hi - lo ≠ 0 := sub_ne_zero.mpr (ne_of_gt hlt)
    constructor
    · simp [normCell, toF, fsub, fdiv, hne]
    · simp [normCell, toF, fsub, fdiv, hne, div_self hne]

/-- Witness for the amended C5 at the concrete range computed for ds100:
low = 1.98 < 97.02 = high, and cells at exactly low and high normalize to 0
and 1. -/
theorem percentile_range_and_normalization_witness :
    normCell (some (99/50)) (some (4851/50)) (.num (99/50)) = FVal.num 0 ∧
    normCell (some (99/50)) (some (4851/50)) (.num (4851/50)) = FVal.num 1 :=
  percentile_range_and_normalization.2.2 (99/50) (4851/50) (by norm_num)

/-- C5 counterexample: the claim's second part fails on a dataset whose
computed range is degenerate — for the one-cell raster [5] the stretch is
low = high = 5 and the cell at exactly low normalizes to NaN, not 0. -/
theorem degenerate_range_normalizes_to_nan :
    (maskNodata ds5).map (fun m => (percentile (definedVals m) 2,
        percentile (definedVals m) 98)) = .ok (some 5, some 5) ∧
    normCell (some 5) (some 5) (.num 5) ≠ FVal.num 0 ∧
    normCell (some 5) (some 5) (.num 5) = FVal.nan := by
  refine ⟨?_, by simp [normCell, toF, fsub, fdiv], by simp [normCell, toF, fsub, fdiv]⟩
  have hmask : maskNodata ds5 = .ok [[FVal.num 5]] := rfl
  rw [hmask]
  show Except.ok (percentile (definedVals [[FVal.num 5]]) 2,
      percentile (definedVals [[FVal.num 5]]) 98) =
    Except.ok ((some (5 : ℚ) : Option ℚ), (some (5 : ℚ) : Option ℚ))
  have hd : definedVals [[FVal.num 5]] = [5] := rfl
  have hall : ∀ x ∈ ([5] : List ℚ), x = 5 := by
    intro x hx
    simpa using hx
  rw [hd, percentile_const _ 5 2 (by norm_num) (by norm_num) hall (by simp),
      percentile_const _ 5 98 (by norm_num) (by norm_num) hall (by simp)]

/-- Witness for C3: a missing first layer and a valid second layer produce
exactly one attributed failure and one success, and only the valid layer's
overlay reaches the map. -/
theorem partial_failure_isolates_bad_layer_witness :
    (create_map envW [("Satellite Imagery", ⟨"data/missing.tif", "viridis", 8/10, true⟩),
        ("Elevation", ⟨"data/good.tif", "terrain", 7/10, true⟩)] (-15) (-38) 11
        ⟨0, []⟩).outcomes =
      [.failure "Satellite Imagery" "data/missing.tif"
          (.rasterioIOError "data/missing.tif"),
        .success "Elevation"] ∧
    (create_map envW [("Satellite Imagery", ⟨"data/missing.tif", "viridis", 8/10, true⟩),
        ("Elevation", ⟨"data/good.tif", "terrain", 7/10, true⟩)] (-15) (-38) 11
        ⟨0, []⟩).m.overlays.map Overlay.name = ["Elevation"] :=
  (partial_failure_isolates_bad_layer envW ⟨0, []⟩ (-15) (-38) 11
      "Satellite Imagery" "Elevation" ⟨"data/missing.tif", "viridis", 8/10, true⟩
      ⟨"data/good.tif", "terrain", 7/10, true⟩ rfl rfl).1
    (by simp [envW])
    (by simp [procOk, envW, dsGood, maskNodata, get_cmap, exceptIsOk])

/-- Witness for C4 at the concrete sentinel raster dsNod. -/
theorem nodata_cells_transparent_and_excluded_witness :
    ∃ m, maskNodata dsNod = .ok m ∧
      definedVals m = dsNod.grid.flatten.filter (fun v => v ≠ 7) ∧
      ∃ r st' art, process_geotiff envW "data/nodata.tif" "viridis" ⟨0, []⟩ =
          (.ok r, st') ∧
        st'.storage = art :: (⟨0, []⟩ : PassState).storage ∧ art.path = r.imagePath ∧
        ∀ i j, cellAt dsNod.grid i j = some 7 →
          ∃ col, cellAt art.content i j = some col ∧ col.a = 0 :=
  nodata_cells_transparent_and_excluded envW "data/nodata.tif" "viridis" ⟨0, []⟩
    dsNod 7 viridis (by simp [envW]) rfl rfl (by simp [get_cmap])

/-- Witness for C8 at the concrete raster dsGood. -/
theorem bounds_match_dataset_extent_witness :
    ∃ r st', process_geotiff envW "data/good.tif" "viridis" ⟨0, []⟩ = (.ok r, st') ∧
      r.bounds = ((dsGood.bounds.bottom, dsGood.bounds.left),
                  (dsGood.bounds.top, dsGood.bounds.right)) ∧
      (dsGood.bounds.bottom ≤ dsGood.bounds.top →
        dsGood.bounds.left ≤ dsGood.bounds.right →
        r.bounds.1.1 ≤ r.bounds.2.1 ∧ r.bounds.1.2 ≤ r.bounds.2.2) ∧
      (∀ (env₂ : Env) (p₂ c₂ : String) (st₂ : PassState) (ds₂ : Dataset)
          (m₂ : List (List FVal)) (cm₂ : Cmap),
        env₂ p₂ = some ds₂ → maskNodata ds₂ = .ok m₂ → get_cmap c₂ = .ok cm₂ →
        ds₂.bounds = dsGood.bounds →
        ∃ r₂ st₂', process_geotiff env₂ p₂ c₂ st₂ = (.ok r₂, st₂') ∧
          r₂.bounds = r.bounds) :=
  bounds_match_dataset_extent envW "data/good.tif" "viridis" ⟨0, []⟩ dsGood
    (dsGood.grid.map (fun row => row.map FVal.num)) viridis
    (by simp [envW]) (by rfl) (by simp [get_cmap])

/-- Witness for C10 at the concrete integer raster dsInt. -/
theorem integer_band_nodata_masking_fails_witness :
    process_geotiff envW "data/int.tif" "viridis" ⟨0, []⟩ =
      (.error (.valueError "cannot convert float NaN to integer"), ⟨0, []⟩) ∧
    (∀ (ds₂ : Dataset) (i j : ℕ), ds₂.intDtype = false → ds₂.nodata = some 7 →
      cellAt ds₂.grid i j = some 7 →
      ∃ m, maskNodata ds₂ = .ok m ∧ cellAt m i j = some FVal.nan) :=
  integer_band_nodata_masking_fails envW "data/int.tif" "viridis" ⟨0, []⟩ dsInt 7
    (by simp [envW]) rfl rfl (by simp [dsInt])

/-- Witness for the amended C1 at the concrete constant raster dsConst. -/
theorem constant_raster_single_color_witness :
    ∃ r st', process_geotiff envW "data/const.tif" "viridis" ⟨0, []⟩ = (.ok r, st') ∧
      ∃ art, st'.storage = art :: (⟨0, []⟩ : PassState).storage ∧
        ∀ row ∈ art.content, ∀ col ∈ row,
          col = { r := 0, g := 0, b := 0, a := 0 } :=
  constant_raster_single_color envW "data/const.tif" "viridis" ⟨0, []⟩ dsConst
    (dsConst.grid.map (fun row => row.map FVal.num)) viridis 5
    (by simp [envW]) (by rfl) (by simp [get_cmap])
    (by
      intro x hx
      rw [show definedVals (dsConst.grid.map (fun row => row.map FVal.num)) =
        [5, 5, 5, 5] from rfl] at hx
      simpa using hx)

/-- C4 counterexample: the claim fails on integer-banded datasets.  The
integer raster dsInt declares sentinel 7 and contains a cell equal to it, yet
processing raises ValueError at the masking step before any artifact exists:
there is no output RGBA grid at all, so the sentinel cell is not rendered with
alpha 0 (nor excluded from any percentile computation). -/
theorem integer_sentinel_defeats_transparency :
    dsInt.nodata = some 7 ∧ (7 : ℚ) ∈ dsInt.grid.flatten ∧ dsInt.intDtype = true ∧
    process_geotiff envW "data/int.tif" "viridis" ⟨0, []⟩ =
      (.error (.valueError "cannot convert float NaN to integer"), ⟨0, []⟩) ∧
    writtenContent envW "data/int.tif" "viridis" ⟨0, []⟩ = none := by
  have hds : envW "data/int.tif" = some dsInt := by simp [envW]
  have hmask : maskNodata dsInt =
      .error (.valueError "cannot convert float NaN to integer") := by
    unfold maskNodata
    simp [dsInt]
  have hp : process_geotiff envW "data/int.tif" "viridis" ⟨0, []⟩ =
      (.error (.valueError "cannot convert float NaN to integer"), ⟨0, []⟩) := by
    unfold process_geotiff
    simp only [hds, hmask]
  refine ⟨rfl, by simp [dsInt], rfl, hp, ?_⟩
  unfold writtenContent
  simp only [hp]

end CsMap
